import Mathlib

/-!
Verification of the geospatial metadata decoding pipeline and the batch
driver of the multiImageTextOverlay repository.

The Python source (src/exif_handler.py, src/main.py) is shallowly embedded:
Python floats are modelled as rationals (`ℚ`, exact field arithmetic in
place of IEEE rounding), Python `int()` truncation as `truncQ`, Python's
`%` on a positive divisor as `pymod`, exceptions as `Except`/`Option`
results, and the module-global transformer cache as explicit state
passing.  External collaborators (piexif, pyproj, PIL) enter only as the
shapes of the data they hand to the embedded code, or as oracle function
parameters.
-/

/-- Python `int()` applied to a rational: truncation toward zero. -/
def truncQ (q : ℚ) : Int :=
  if 0 ≤ q then ⌊q⌋ else ⌈q⌉

/-- Python `a % b` on numbers, for use with a positive divisor `b`:
the representative of `a` modulo `b` lying in `[0, b)`. -/
def pymod (a b : ℚ) : ℚ :=
  a - b * (⌊a / b⌋ : ℚ)

/-- Error raised by `rational_to_decimal` (the spec's `MalformedCoordinate`;
in the source a `ValueError`). -/
inductive GeoError
  | malformedCoordinate
deriving DecidableEq, Repr

/-- src/exif_handler.py, `rational_to_decimal` (lines 17-46): converts a GPS
rational triple of (numerator, denominator) pairs into decimal degrees.
The source first rejects inputs whose element count is not 3, then rejects
any zero denominator, then returns `deg + min/60 + sec/3600`; the
three-element match below realises the length test, and the denominator
test is the source's positional scan. -/
def rational_to_decimal (rational : List (Int × Int)) : Except GeoError ℚ :=
  match rational with
  | [d, m, s] =>
    if d.2 = 0 ∨ m.2 = 0 ∨ s.2 = 0 then
      .error .malformedCoordinate
    else
      let degrees : ℚ := (d.1 : ℚ) / (d.2 : ℚ)
      let minutes : ℚ := (m.1 : ℚ) / (m.2 : ℚ)
      let seconds : ℚ := (s.1 : ℚ) / (s.2 : ℚ)
      .ok (degrees + minutes / 60 + seconds / 3600)
  | _ => .error .malformedCoordinate

/-- The (degrees, minutes, seconds) integer components computed by
src/exif_handler.py, `decimal_to_dms` (lines 60-66): absolute value first,
then truncating conversions. -/
def dms_components (decimal : ℚ) : Int × Int × Int :=
  let x := |decimal|
  let degrees := truncQ x
  let minutes_decimal := (x - (degrees : ℚ)) * 60
  let minutes := truncQ minutes_decimal
  let seconds := truncQ ((minutes_decimal - (minutes : ℚ)) * 60)
  (degrees, minutes, seconds)

/-- src/exif_handler.py, `decimal_to_dms` (lines 49-73): renders decimal
degrees as a degrees/minutes/seconds string with a hemisphere letter.
`is_positive` in the source is `decimal >= 0`, computed before the
absolute value is taken. -/
def decimal_to_dms (decimal : ℚ) (is_latitude : Bool) : String :=
  let c := dms_components decimal
  let direction : String :=
    if is_latitude then
      (if 0 ≤ decimal then "N" else "S")
    else
      (if 0 ≤ decimal then "E" else "W")
  toString c.1 ++ "°" ++ toString c.2.1 ++ "\x27" ++ toString c.2.2 ++ "\"" ++ direction

/-- The 16-sector compass table of `degrees_to_cardinal`. -/
def directions16 : List String :=
  ["N", "NNE", "NE", "ENE",
   "E", "ESE", "SE", "SSE",
   "S", "SSW", "SW", "WSW",
   "W", "WNW", "NW", "NNW"]

/-- The 8-sector compass table of `degrees_to_cardinal`. -/
def directions8 : List String :=
  ["N", "NE", "E", "SE", "S", "SW", "W", "NW"]

/-- Python list indexing `l[i]`: valid for `-len ≤ i < len`, negative
indices count from the end; out of range raises `IndexError` (`none`). -/
def pyGet (l : List String) (i : Int) : Option String :=
  if 0 ≤ i then l.get? i.toNat
  else if 0 ≤ i + l.length then l.get? (i + l.length).toNat
  else none

/-- The sector index computed by src/exif_handler.py, `degrees_to_cardinal`
(lines 101 and 106): `int((degrees + sector_size / 2) % 360 / sector_size)`
for already-normalized `degrees`. -/
def cardinal_index (degrees : ℚ) (sector_size : ℚ) : Int :=
  truncQ (pymod (degrees + sector_size / 2) 360 / sector_size)

/-- src/exif_handler.py, `degrees_to_cardinal` (lines 76-108): normalizes
the heading via `% 360`, then selects a sector label.  The source branches
on `precision == 16`; every other precision value takes the default
8-sector branch.  The table lookup is Python list indexing. -/
def degrees_to_cardinal (degrees : ℚ) (precision : Int) : Option String :=
  let d := pymod degrees 360
  if precision = 16 then
    pyGet directions16 (cardinal_index d (360 / 16))
  else
    pyGet directions8 (cardinal_index d (360 / 8))

/-- src/exif_handler.py, `get_transformer` (lines 111-129).  The source
keeps a module-global dict `_transformer_cache`; here the cache is passed
and returned explicitly, and `Transformer.from_crs` (pyproj, external) is
an oracle parameter `from_crs` that either constructs a transform or
raises (`.error`).  In the source the dict entry is assigned the value of
the `from_crs` call, so when the call raises, the assignment never
happens and the cache is returned as it was. -/
def get_transformer {T : Type} (from_crs : Int → Except String T)
    (cache : Int → Option T) (target_epsg : Int) :
    Except String T × (Int → Option T) :=
  match cache target_epsg with
  | some t => (.ok t, cache)
  | none =>
    match from_crs target_epsg with
    | .ok t => (.ok t, Function.update cache target_epsg (some t))
    | .error e => (.error e, cache)

/-! ### The batch driver (src/main.py)

A filesystem is modelled as a finite association list from paths to file
contents (contents abstracted as `Nat`); a path exists iff it has an
entry.  `pathlib.Path` values are modelled by their parent directory,
stem and suffix. -/

/-- A `pathlib.Path`: parent directory, stem and suffix
(`output/a.jpg` is `⟨"output", "a", ".jpg"⟩`). -/
structure Fpath where
  parent : String
  stem : String
  suffix : String
deriving DecidableEq, Repr

/-- `Path.name`: filename with suffix, without the directory. -/
def Fpath.name (p : Fpath) : String :=
  p.stem ++ p.suffix

/-- A finite filesystem state: the existing files with their contents. -/
def FS : Type := List (Fpath × Nat)

/-- `path.exists()` against a filesystem state. -/
def fsHas (fs : FS) (p : Fpath) : Bool :=
  fs.any (fun e => e.1 = p)

/-- src/main.py `--collision` choices (line 128). -/
inductive CollisionMode
  | overwrite
  | skip
  | rename
deriving DecidableEq, Repr

/-- The per-file tuple `(success, input_filename, message)` returned by
`process_single_image` (src/main.py line 211). -/
structure JobResult where
  success : Bool
  filename : String
  message : String
deriving DecidableEq, Repr

/-- The candidate path `parent / f"{stem}_{counter}{suffix}"` probed by
`get_unique_output_path` (src/main.py line 197). -/
def rename_candidate (p : Fpath) (counter : Nat) : Fpath :=
  ⟨p.parent, p.stem ++ "_" ++ Nat.repr counter, p.suffix⟩

/-- The `while True` search of `get_unique_output_path` (src/main.py lines
196-200), made structurally recursive on a fuel argument.  With fuel
`fs.length + 1` the zero-fuel branch is unreachable, because the
`fs.length + 1` candidate names probed are pairwise distinct and the
filesystem holds only `fs.length` entries (theorem
`find_unused_not_in_fs` below); the source loop would go on probing
forever only on an infinite filesystem. -/
def find_unused (fs : FS) (p : Fpath) (c fuel : Nat) : Fpath :=
  match fuel with
  | 0 => rename_candidate p c
  | fuel + 1 =>
    let candidate := rename_candidate p c
    if fsHas fs candidate then find_unused fs p (c + 1) fuel else candidate

/-- src/main.py, `get_unique_output_path` (lines 178-200): returns the
path unchanged if it does not exist, otherwise the first
counter-suffixed variant that does not exist, counting from 1. -/
def get_unique_output_path (fs : FS) (output_path : Fpath) : Fpath :=
  if ¬ fsHas fs output_path then output_path
  else find_unused fs output_path 1 (fs.length + 1)

/-- The tail of `process_single_image` (src/main.py lines 226-232): run
`process_image` (external collaborator, passed as `procImage`, returning
a success flag and the updated filesystem) and build the result tuple.
The third component records the output path at which processing was
invoked. -/
def run_process_image (procImage : Fpath → Fpath → FS → Bool × FS)
    (fs : FS) (input output_path : Fpath) : JobResult × FS × Option Fpath :=
  let r := procImage input output_path fs
  (⟨r.1, input.name, if r.1 then "processed successfully" else "processing failed"⟩,
   r.2, some output_path)

/-- src/main.py, `process_single_image` (lines 203-232): the worker-side
job body.  It computes the output path from the dispatched input path and
output directory, applies the collision policy against the filesystem
state it observes when it runs, and then processes the image.  In the
source the `overwrite` case has no branch and falls through with the
original path, exactly like the path-does-not-exist case. -/
def process_single_image (procImage : Fpath → Fpath → FS → Bool × FS)
    (fs : FS) (input : Fpath) (output_dir : String)
    (collision_mode : CollisionMode) : JobResult × FS × Option Fpath :=
  let output_path : Fpath := ⟨output_dir, input.stem, input.suffix⟩
  if fsHas fs output_path then
    match collision_mode with
    | .skip => (⟨true, input.name, "skipped (already exists)"⟩, fs, none)
    | .rename => run_process_image procImage fs input (get_unique_output_path fs output_path)
    | .overwrite => run_process_image procImage fs input output_path
  else
    run_process_image procImage fs input output_path

/-- The collision-policy resolution embedded in `process_single_image`
(src/main.py lines 216-224), exposed as a function of the filesystem
state: `none` means the Skipped early return, `some out` the output path
processing proceeds with. -/
def resolve_output_path (fs : FS) (output_path : Fpath)
    (mode : CollisionMode) : Option Fpath :=
  if fsHas fs output_path then
    match mode with
    | .skip => none
    | .rename => some (get_unique_output_path fs output_path)
    | .overwrite => some output_path
  else some output_path

/-- src/main.py line 305: the job payloads handed to the worker pool,
`[(jpg_file, output_dir, args.collision) for jpg_file in jpg_files]`.
Each payload carries the raw input path, the output directory and the
collision mode; no output path is resolved before dispatch. -/
def process_args (jpg_files : List Fpath) (output_dir : String)
    (collision : CollisionMode) : List (Fpath × String × CollisionMode) :=
  jpg_files.map (fun jpg_file => (jpg_file, output_dir, collision))

/-! ### EXIF metadata extraction (src/exif_handler.py, `extract_exif_data`)

The piexif container (external collaborator) is modelled by the data it
hands back: `piexif.load` either fails (grouped by the exception classes
the source catches) or yields a dict with an optional DateTime byte
string and an optional GPS IFD.  Byte strings that are genuine bytes
always decode, because the source falls back to latin-1 with
`errors='replace'`; only a non-bytes value (`AttributeError`) leaves the
datetime absent.  GPS reference values are modelled as already-decoded
strings. -/

/-- A raw tag value that should be a byte string: either actual bytes
(which always decode via the utf-8 / latin-1 fallback) or a non-bytes
value whose `.decode` raises `AttributeError`. -/
inductive RawText
  | bytes (s : String)
  | notBytes
deriving DecidableEq, Repr

/-- The utf-8 decode with latin-1 fallback of src/exif_handler.py lines
195-204: total on genuine bytes, failing only on a non-bytes value. -/
def decodeText : RawText → Option String
  | .bytes s => some s
  | .notBytes => none

/-- A GPSAltitude / GPSImgDirection tag value: a 2-tuple rational, a
scalar that `float()` accepts, or a value that `float()` rejects
(`ValueError`/`TypeError`). -/
inductive ExifNum
  | rat (num den : Int)
  | scalar (q : ℚ)
  | invalid
deriving DecidableEq, Repr

/-- The rational-or-scalar conversion of src/exif_handler.py lines
256-259 and 276-279: a 2-tuple is divided (raising on a zero
denominator), anything else goes through `float()`. -/
def exifNumToFloat : ExifNum → Option ℚ
  | .rat num den => if den = 0 then none else some ((num : ℚ) / (den : ℚ))
  | .scalar q => some q
  | .invalid => none

/-- The GPS IFD of a loaded EXIF dict: the tags `extract_exif_data`
reads, each optional. -/
structure GpsIFD where
  latitude : Option (List (Int × Int))
  latitudeRef : Option String
  longitude : Option (List (Int × Int))
  longitudeRef : Option String
  altitude : Option ExifNum
  altitudeRef : Option Int
  imgDirection : Option ExifNum
  imgDirectionRef : Option String
deriving DecidableEq, Repr

/-- A successfully loaded EXIF dict: the '0th' DateTime tag and the GPS
IFD, each optional. -/
structure ExifDict where
  dateTime : Option RawText
  gps : Option GpsIFD
deriving DecidableEq, Repr

/-- The exception classes caught around `piexif.load` (src/exif_handler.py
lines 306-315). -/
inductive LoadError
  | invalidImageData
  | fileNotFound
  | ioFailure
  | unexpected
deriving DecidableEq, Repr

/-- The dict returned by `extract_exif_data` (src/exif_handler.py lines
182-188): the five initial keys plus the `location_utm` key, which is
only inserted when the UTM branch runs (`some none` models the key being
present with value `None`). -/
structure MetadataRecord where
  filename : Option String
  datetime : Option String
  location : Option String
  altitude : Option ℚ
  direction : Option ℚ
  location_utm : Option (Option String)
deriving DecidableEq, Repr

/-- The GPS block of `extract_exif_data` (src/exif_handler.py lines
207-304).  The four-way match is the `has_lat and has_lon` guard; the
matches on `rational_to_decimal` are the `except ValueError` at line 301:
a malformed latitude or longitude abandons the whole block, returning the
record built so far.  Altitude, direction and the UTM transform run in
order inside the successful-decode branch, each behind its own guard.
`utm` is the `transform_to_utm` + `format_utm_coordinates` pipeline
(lines 288-299) as an oracle: `none` models the caught exception. -/
def extract_gps (g : GpsIFD) (showUtm : Bool) (utm : ℚ → ℚ → Option String)
    (result : MetadataRecord) : MetadataRecord :=
  match g.latitude, g.latitudeRef, g.longitude, g.longitudeRef with
  | some latRat, some latRef, some lonRat, some lonRef =>
    (match rational_to_decimal latRat with
     | .error _ => result
     | .ok latAbs =>
       let lat := if latRef = "S" then -latAbs else latAbs
       match rational_to_decimal lonRat with
       | .error _ => result
       | .ok lonAbs =>
         let lon := if lonRef = "W" then -lonAbs else lonAbs
         let r2 := { result with
           location := some (decimal_to_dms lat true ++ ", " ++ decimal_to_dms lon false) }
         let r3 :=
           match g.altitude with
           | none => r2
           | some a =>
             match exifNumToFloat a with
             | none => r2
             | some alt =>
               { r2 with altitude := some (if g.altitudeRef.getD 0 = 1 then -alt else alt) }
         let r4 :=
           match g.imgDirection with
           | none => r3
           | some a =>
             match exifNumToFloat a with
             | none => r3
             | some dir => { r3 with direction := some dir }
         if showUtm then
           match utm lat lon with
           | some s => { r4 with location_utm := some (some s) }
           | none => { r4 with location_utm := some none }
         else r4)
  | _, _, _, _ => result

/-- src/exif_handler.py, `extract_exif_data` (lines 166-317): builds the
initial all-absent record, then fills each field behind its guards.  A
load failure of any of the four caught classes returns the initial
record. -/
def extract_exif_data (loaded : Except LoadError ExifDict)
    (filename : Option String) (showUtm : Bool)
    (utm : ℚ → ℚ → Option String) : MetadataRecord :=
  let result0 : MetadataRecord :=
    { filename := filename, datetime := none, location := none,
      altitude := none, direction := none, location_utm := none }
  match loaded with
  | .error _ => result0
  | .ok exif =>
    let result1 := { result0 with datetime := exif.dateTime.bind decodeText }
    match exif.gps with
    | none => result1
    | some g => extract_gps g showUtm utm result1

/-- The ExifDict of the C1 counterexample: a complete GPS latitude /
longitude pair whose latitude rational has a zero denominator
(malformed), together with a present, well-formed altitude and image
direction. -/
def dictMalformedLat : ExifDict :=
  { dateTime := none,
    gps := some
      { latitude := some [(1, 0), (1, 1), (1, 1)],
        latitudeRef := some "N",
        longitude := some [(10, 1), (0, 1), (0, 1)],
        longitudeRef := some "E",
        altitude := some (.rat 100 1),
        altitudeRef := none,
        imgDirection := some (.rat 90 1),
        imgDirectionRef := none } }

/-- The same dict with the latitude rational well-formed. -/
def dictWellFormedLat : ExifDict :=
  { dictMalformedLat with
    gps := some
      { latitude := some [(1, 1), (1, 1), (1, 1)],
        latitudeRef := some "N",
        longitude := some [(10, 1), (0, 1), (0, 1)],
        longitudeRef := some "E",
        altitude := some (.rat 100 1),
        altitudeRef := none,
        imgDirection := some (.rat 90 1),
        imgDirectionRef := none } }

/-- The altitude stage of the GPS block (src/exif_handler.py lines
250-267) as a function of exactly the data it reads: the altitude tag,
the altitude reference, and the previous value of the altitude field.
Proven equal to the corresponding stage of `extract_gps` in
`extract_gps_eq` below. -/
def altitude_field (alt : Option ExifNum) (altRef : Option Int)
    (prev : Option ℚ) : Option ℚ :=
  match alt with
  | none => prev
  | some a =>
    match exifNumToFloat a with
    | none => prev
    | some v => some (if altRef.getD 0 = 1 then -v else v)

/-- The image-direction stage of the GPS block (src/exif_handler.py
lines 270-286) as a function of exactly the data it reads. -/
def direction_field (dir : Option ExifNum) (prev : Option ℚ) : Option ℚ :=
  match dir with
  | none => prev
  | some a =>
    match exifNumToFloat a with
    | none => prev
    | some v => some v

/-- The UTM stage of the GPS block (src/exif_handler.py lines 288-299)
as a function of exactly the data it reads. -/
def utm_field (showUtm : Bool) (u : ℚ → ℚ → Option String) (lat lon : ℚ)
    (prev : Option (Option String)) : Option (Option String) :=
  if showUtm then
    match u lat lon with
    | some s => some (some s)
    | none => some none
  else prev

/-- The numeric value of a decimal digit string (used to show that
`Nat.repr` is injective, which is what makes the rename-counter search
terminate). -/
def decimalVal (cs : List Char) : Nat :=
  cs.foldl (fun a c => a * 10 + (c.toNat - 48)) 0

/-! ## Helper lemmas -/

theorem truncQ_of_nonneg {q : ℚ} (h : 0 ≤ q) : truncQ q = ⌊q⌋ :=
  if_pos h

theorem truncQ_nonneg {q : ℚ} (h : 0 ≤ q) : 0 ≤ truncQ q := by
  rw [truncQ_of_nonneg h]
  exact Int.floor_nonneg.mpr h

theorem pymod_nonneg (a : ℚ) {b : ℚ} (hb : 0 < b) : 0 ≤ pymod a b := by
  rw [pymod]
  have h1 : (⌊a / b⌋ : ℚ) ≤ a / b := Int.floor_le _
  have h2 : b * (⌊a / b⌋ : ℚ) ≤ b * (a / b) := mul_le_mul_of_nonneg_left h1 hb.le
  have h3 : b * (a / b) = a := by field_simp
  linarith

theorem pymod_lt (a : ℚ) {b : ℚ} (hb : 0 < b) : pymod a b < b := by
  rw [pymod]
  have h1 : a / b < (⌊a / b⌋ : ℚ) + 1 := Int.lt_floor_add_one _
  have h2 : b * (a / b) < b * ((⌊a / b⌋ : ℚ) + 1) := by
    exact mul_lt_mul_of_pos_left h1 hb
  have h3 : b * (a / b) = a := by field_simp
  nlinarith

theorem cardinal_index_nonneg (d : ℚ) {s : ℚ} (hs : 0 < s) :
    0 ≤ cardinal_index d s := by
  rw [cardinal_index]
  have h360 : (0 : ℚ) < 360 := by norm_num
  exact truncQ_nonneg (div_nonneg (pymod_nonneg _ h360) hs.le)

theorem cardinal_index_lt (d : ℚ) {s : ℚ} (hs : 0 < s) :
    (cardinal_index d s : ℚ) < 360 / s := by
  rw [cardinal_index]
  have h360 : (0 : ℚ) < 360 := by norm_num
  have hq0 : 0 ≤ pymod (d + s / 2) 360 / s :=
    div_nonneg (pymod_nonneg _ h360) hs.le
  rw [truncQ_of_nonneg hq0]
  have h1 : (⌊pymod (d + s / 2) 360 / s⌋ : ℚ) ≤ pymod (d + s / 2) 360 / s :=
    Int.floor_le _
  have h2 : pymod (d + s / 2) 360 / s < 360 / s := by
    gcongr
    exact pymod_lt _ h360
  linarith

theorem cardinal_index8_bounds (d : ℚ) :
    0 ≤ cardinal_index d (360 / 8) ∧ cardinal_index d (360 / 8) < 8 := by
  have hs : (0 : ℚ) < 360 / 8 := by norm_num
  refine ⟨cardinal_index_nonneg d hs, ?_⟩
  have h := cardinal_index_lt d hs
  have h8 : (360 : ℚ) / (360 / 8) = 8 := by norm_num
  rw [h8] at h
  exact_mod_cast h

theorem cardinal_index16_bounds (d : ℚ) :
    0 ≤ cardinal_index d (360 / 16) ∧ cardinal_index d (360 / 16) < 16 := by
  have hs : (0 : ℚ) < 360 / 16 := by norm_num
  refine ⟨cardinal_index_nonneg d hs, ?_⟩
  have h := cardinal_index_lt d hs
  have h16 : (360 : ℚ) / (360 / 16) = 16 := by norm_num
  rw [h16] at h
  exact_mod_cast h

theorem pyGet_of_bounds {l : List String} {i : Int} (h0 : 0 ≤ i)
    (h1 : i.toNat < l.length) : ∃ s, pyGet l i = some s ∧ s ∈ l := by
  rw [pyGet, if_pos h0]
  rcases List.get?_eq_get h1 with h
  exact ⟨l.get ⟨i.toNat, h1⟩, h, List.get_mem l _ _⟩

theorem degrees_to_cardinal_total (d : ℚ) (p : Int) :
    ∃ s, degrees_to_cardinal d p = some s ∧
      (s ∈ directions16 ∨ s ∈ directions8) := by
  rw [degrees_to_cardinal]
  by_cases hp : p = 16
  · rw [if_pos hp]
    have hb := cardinal_index16_bounds (pymod d 360)
    have hlen : (directions16 : List String).length = 16 := by rfl
    have ht : (cardinal_index (pymod d 360) (360 / 16)).toNat < directions16.length := by
      rw [hlen]; omega
    rcases pyGet_of_bounds hb.1 ht with ⟨s, hs, hmem⟩
    exact ⟨s, hs, Or.inl hmem⟩
  · rw [if_neg hp]
    have hb := cardinal_index8_bounds (pymod d 360)
    have hlen : (directions8 : List String).length = 8 := by rfl
    have ht : (cardinal_index (pymod d 360) (360 / 8)).toNat < directions8.length := by
      rw [hlen]; omega
    rcases pyGet_of_bounds hb.1 ht with ⟨s, hs, hmem⟩
    exact ⟨s, hs, Or.inr hmem⟩

/-! ## The rename-counter search terminates within `fs.length + 1` probes

`Nat.repr` is injective, so the candidate names probed by `find_unused`
are pairwise distinct and a filesystem with `fs.length` entries cannot
occupy all of them: the zero-fuel branch of `find_unused` is never
taken and `get_unique_output_path` computes exactly what the source's
unbounded `while True` loop computes. -/

theorem toDigitsCore_append (b fuel n : Nat) (ds : List Char) :
    Nat.toDigitsCore b fuel n ds = Nat.toDigitsCore b fuel n [] ++ ds := by
  induction fuel generalizing n ds with
  | zero => simp [Nat.toDigitsCore]
  | succ f ih =>
    simp only [Nat.toDigitsCore]
    by_cases h : n / b = 0
    · simp [h]
    · rw [if_neg h, if_neg h, ih (n / b), ih (n / b) [Nat.digitChar (n % b)]]
      simp

theorem toDigitsCore_fuel {b : Nat} (hb : 2 ≤ b) :
    ∀ n f f' : Nat, n < f → n < f' → ∀ ds,
      Nat.toDigitsCore b f n ds = Nat.toDigitsCore b f' n ds := by
  intro n
  induction n using Nat.strong_induction_on with
  | _ n ih =>
    intro f f' hf hf' ds
    obtain ⟨g, rfl⟩ : ∃ k, f = k + 1 := ⟨f - 1, by omega⟩
    obtain ⟨g', rfl⟩ : ∃ k, f' = k + 1 := ⟨f' - 1, by omega⟩
    simp only [Nat.toDigitsCore]
    by_cases h : n / b = 0
    · simp [h]
    · rw [if_neg h, if_neg h]
      have hn0 : 0 < n := by
        rcases Nat.eq_zero_or_pos n with h0 | h0
        · subst h0; simp at h
        · exact h0
      have hnb : n / b < n := Nat.div_lt_self hn0 (by omega)
      exact ih (n / b) hnb g g' (by omega) (by omega) _

theorem digitVal_digitChar {d : Nat} (h : d < 10) :
    (Nat.digitChar d).toNat - 48 = d := by
  interval_cases d <;> rfl

theorem decimalVal_append (cs : List Char) (c : Char) :
    decimalVal (cs ++ [c]) = decimalVal cs * 10 + (c.toNat - 48) := by
  simp [decimalVal, List.foldl_append]

theorem decimalVal_toDigits (n : Nat) :
    decimalVal (Nat.toDigits 10 n) = n := by
  induction n using Nat.strong_induction_on with
  | _ n ih =>
    rw [Nat.toDigits]
    simp only [Nat.toDigitsCore]
    by_cases h : n / 10 = 0
    · rw [if_pos h]
      have hn : n < 10 := by omega
      have hmod : n % 10 = n := Nat.mod_eq_of_lt hn
      simp [decimalVal, hmod, digitVal_digitChar hn]
    · rw [if_neg h]
      rw [toDigitsCore_append]
      have hlt : n / 10 < n := Nat.div_lt_self (by omega) (by omega)
      have hfuel : Nat.toDigitsCore 10 n (n / 10) [] = Nat.toDigits 10 (n / 10) := by
        rw [Nat.toDigits]
        exact toDigitsCore_fuel (by omega) (n / 10) n (n / 10 + 1) (by omega) (by omega) []
      rw [hfuel, decimalVal_append, ih (n / 10) hlt,
        digitVal_digitChar (Nat.mod_lt n (by omega))]
      omega

theorem natRepr_injective : Function.Injective Nat.repr := by
  intro m n h
  have h2 : Nat.toDigits 10 m = Nat.toDigits 10 n := congrArg String.data h
  calc m = decimalVal (Nat.toDigits 10 m) := (decimalVal_toDigits m).symm
    _ = decimalVal (Nat.toDigits 10 n) := by rw [h2]
    _ = n := decimalVal_toDigits n

theorem rename_candidate_injective (p : Fpath) :
    Function.Injective (rename_candidate p) := by
  intro a b h
  have hs : p.stem ++ "_" ++ Nat.repr a = p.stem ++ "_" ++ Nat.repr b :=
    congrArg Fpath.stem h
  have hd := congrArg String.data hs
  simp only [String.data_append] at hd
  rw [List.append_assoc, List.append_assoc] at hd
  have h2 := List.append_cancel_left hd
  have hr : (Nat.repr a).data = (Nat.repr b).data := by simpa using h2
  exact natRepr_injective (String.ext hr)

theorem fsHas_eq_true {fs : FS} {q : Fpath} :
    fsHas fs q = true ↔ q ∈ fs.map Prod.fst := by
  simp only [fsHas, List.any_eq_true, decide_eq_true_eq, List.mem_map]

theorem exists_unused_candidate (fs : FS) (p : Fpath) (c0 : Nat) :
    ∃ j ≤ fs.length, fsHas fs (rename_candidate p (c0 + j)) = false := by
  by_contra hcon
  push_neg at hcon
  have hmem : ∀ j ≤ fs.length, rename_candidate p (c0 + j) ∈ fs.map Prod.fst := by
    intro j hj
    have := hcon j hj
    rw [← fsHas_eq_true]
    revert this
    cases fsHas fs (rename_candidate p (c0 + j)) <;> simp
  have hinj : Function.Injective (fun j : Nat => rename_candidate p (c0 + j)) := by
    intro x y hxy
    have := rename_candidate_injective p hxy
    omega
  have hsub : (Finset.range (fs.length + 1)).image (fun j => rename_candidate p (c0 + j)) ⊆
      (fs.map Prod.fst).toFinset := by
    intro q hq
    rcases Finset.mem_image.mp hq with ⟨j, hj, rfl⟩
    exact List.mem_toFinset.mpr (hmem j (by simpa using Nat.lt_succ_iff.mp (Finset.mem_range.mp hj)))
  have hcard := Finset.card_le_card hsub
  rw [Finset.card_image_of_injective _ hinj, Finset.card_range] at hcard
  have := List.toFinset_card_le (fs.map Prod.fst)
  simp at this
  omega

theorem find_unused_spec (fs : FS) (p : Fpath) :
    ∀ fuel c0, (∃ j < fuel, fsHas fs (rename_candidate p (c0 + j)) = false) →
      fsHas fs (find_unused fs p c0 fuel) = false := by
  intro fuel
  induction fuel with
  | zero =>
    intro c0 ⟨j, hj, _⟩
    omega
  | succ f ih =>
    intro c0 ⟨j, hj, hfree⟩
    rw [find_unused]
    by_cases hc : fsHas fs (rename_candidate p c0) = true
    · simp only [hc, if_true]
      apply ih
      have hj0 : j ≠ 0 := by
        intro h0
        subst h0
        simp at hfree
        rw [hfree] at hc
        exact Bool.false_ne_true hc
      refine ⟨j - 1, by omega, ?_⟩
      have : c0 + 1 + (j - 1) = c0 + j := by omega
      rw [this]
      exact hfree
    · simp only [Bool.not_eq_true] at hc
      simp [hc]

theorem find_unused_not_in_fs (fs : FS) (p : Fpath) :
    fsHas fs (find_unused fs p 1 (fs.length + 1)) = false := by
  rcases exists_unused_candidate fs p 1 with ⟨j, hj, hfree⟩
  exact find_unused_spec fs p (fs.length + 1) 1 ⟨j, by omega, hfree⟩

theorem get_unique_output_path_not_in_fs (fs : FS) (p : Fpath) :
    fsHas fs (get_unique_output_path fs p) = false := by
  rw [get_unique_output_path]
  by_cases h : fsHas fs p = true
  · rw [if_neg (by simp [h])]
    exact find_unused_not_in_fs fs p
  · simp only [Bool.not_eq_true] at h
    rw [if_pos (by simp [h])]
    exact h

/-! ## The claims -/

/-- Claim C3: for every triple of exactly 3 (numerator, denominator)
pairs with all denominators nonzero, `rational_to_decimal` returns
`deg + min/60 + sec/3600` with each component computed by division (a
pure function); for every input whose element count differs from 3 or
that contains a zero denominator, it fails with `MalformedCoordinate`. -/
theorem C3_rational_decode :
    (∀ dn dd mn md sn sd : Int, dd ≠ 0 → md ≠ 0 → sd ≠ 0 →
      rational_to_decimal [(dn, dd), (mn, md), (sn, sd)] =
        .ok ((dn : ℚ) / (dd : ℚ) + ((mn : ℚ) / (md : ℚ)) / 60 +
          ((sn : ℚ) / (sd : ℚ)) / 3600)) ∧
    (∀ l : List (Int × Int), l.length ≠ 3 →
      rational_to_decimal l = .error .malformedCoordinate) ∧
    (∀ (l : List (Int × Int)) (p : Int × Int), p ∈ l → p.2 = 0 →
      rational_to_decimal l = .error .malformedCoordinate) := by
  refine ⟨?_, ?_, ?_⟩
  · intro dn dd mn md sn sd h1 h2 h3
    simp [rational_to_decimal, h1, h2, h3]
  · intro l hl
    rcases l with _ | ⟨a, _ | ⟨b, _ | ⟨c, _ | ⟨d, l⟩⟩⟩⟩
    · rfl
    · rfl
    · rfl
    · simp at hl
    · rfl
  · intro l p hp hz
    rcases l with _ | ⟨a, _ | ⟨b, _ | ⟨c, _ | ⟨d, l⟩⟩⟩⟩
    · rfl
    · rfl
    · rfl
    · simp only [List.mem_cons, List.not_mem_nil, or_false] at hp
      rcases hp with hp | hp | hp <;> subst hp <;> simp [rational_to_decimal, hz]
    · rfl

/-- Witness for C3 at `59°30'0''`, the empty triple, and a zero
denominator. -/
theorem C3_rational_decode_witness :
    rational_to_decimal [(59, 1), (30, 1), (0, 1)] =
      .ok ((59 : ℚ) / (1 : ℚ) + ((30 : ℚ) / (1 : ℚ)) / 60 + ((0 : ℚ) / (1 : ℚ)) / 3600) ∧
    rational_to_decimal [] = .error .malformedCoordinate ∧
    rational_to_decimal [(1, 0), (1, 1), (1, 1)] = .error .malformedCoordinate :=
  ⟨C3_rational_decode.1 59 1 30 1 0 1 (by norm_num) (by norm_num) (by norm_num),
   C3_rational_decode.2.1 [] (by simp),
   C3_rational_decode.2.2 [(1, 0), (1, 1), (1, 1)] (1, 0) (by simp) rfl⟩

/-- Claim C7: the compass-sector operation satisfies
`degrees_to_cardinal 0 8 = "N"`, `degrees_to_cardinal 45 8 = "NE"`,
`degrees_to_cardinal 360 8 = "N"` (wrap via modulo normalization), and
`degrees_to_cardinal 11.25 16 = "NNE"` (a sector boundary rounds to the
nearest label after adding half a sector width). -/
theorem C7_cardinal_values :
    degrees_to_cardinal 0 8 = some "N" ∧
    degrees_to_cardinal 45 8 = some "NE" ∧
    degrees_to_cardinal 360 8 = some "N" ∧
    degrees_to_cardinal (45 / 4) 16 = some "NNE" := by
  refine ⟨?_, ?_, ?_, ?_⟩ <;>
    norm_num [degrees_to_cardinal, cardinal_index, pymod, truncQ, pyGet,
      directions8, directions16]

/-- Counterexample to claim C2: precision 7 is neither 8 nor 16, yet
`degrees_to_cardinal` does not fail with any error — it returns the
label "N" from the default 8-sector table. -/
theorem C2_no_precision_error :
    degrees_to_cardinal 0 7 = some "N" := by
  norm_num [degrees_to_cardinal, cardinal_index, pymod, truncQ, pyGet, directions8]

/-- Claim C2 as amended: for every heading value and every precision
argument other than 16 (including every value outside {8, 16}), the
heading-to-compass-sector operation silently behaves exactly as
precision 8: it returns a label from the 8-sector table and raises no
`InvalidPrecision` error (no such error exists in the code). -/
theorem C2_default_precision (d : ℚ) (p : Int) (hp : p ≠ 16) :
    degrees_to_cardinal d p = degrees_to_cardinal d 8 ∧
    ∃ s, degrees_to_cardinal d p = some s ∧ s ∈ directions8 := by
  constructor
  · simp [degrees_to_cardinal, hp]
  · rw [degrees_to_cardinal]
    simp only [if_neg hp]
    have hb := cardinal_index8_bounds (pymod d 360)
    have ht : (cardinal_index (pymod d 360) (360 / 8)).toNat < directions8.length := by
      have : (directions8 : List String).length = 8 := by rfl
      omega
    exact pyGet_of_bounds hb.1 ht

/-- Witness for the amended C2 at heading 0, precision 7. -/
theorem C2_default_precision_witness :
    (7 : Int) ≠ 16 ∧
    (degrees_to_cardinal 0 7 = degrees_to_cardinal 0 8 ∧
      ∃ s, degrees_to_cardinal 0 7 = some s ∧ s ∈ directions8) :=
  ⟨by decide, C2_default_precision 0 7 (by decide)⟩

/-- Claim C10 (implicit): for every finite heading value (negative and
≥ 360 included) and every integer precision argument whatsoever, the
index computed into the compass label table is within the table's
bounds — `0..15` for the 16-entry table, `0..7` for the 8-entry table
used whenever precision is not 16 — so the table lookup never fails. -/
theorem C10_index_within_bounds (d : ℚ) (p : Int) :
    (0 ≤ cardinal_index (pymod d 360) (360 / 16) ∧
      cardinal_index (pymod d 360) (360 / 16) < 16) ∧
    (0 ≤ cardinal_index (pymod d 360) (360 / 8) ∧
      cardinal_index (pymod d 360) (360 / 8) < 8) ∧
    ∃ s, degrees_to_cardinal d p = some s :=
  ⟨cardinal_index16_bounds _, cardinal_index8_bounds _,
    (degrees_to_cardinal_total d p).imp (fun _ h => h.1)⟩

/-- Claim C8: `decimal_to_dms` applied to 0.0 as latitude yields
`0°0'0"N`; applied to any negative longitude it yields a string ending
in `W`; and for every input the degree, minute and second components it
renders are non-negative integers (absolute value first, then
truncating conversions). -/
theorem C8_dms_properties :
    decimal_to_dms 0 true = "0°0\x270\"N" ∧
    (∀ q : ℚ, q < 0 → ∃ s, decimal_to_dms q false = s ++ "W") ∧
    (∀ q : ℚ, 0 ≤ (dms_components q).1 ∧ 0 ≤ (dms_components q).2.1 ∧
      0 ≤ (dms_components q).2.2) := by
  refine ⟨?_, ?_, ?_⟩
  · have h : dms_components 0 = (0, 0, 0) := by norm_num [dms_components, truncQ]
    simp only [decimal_to_dms, h]
    norm_num
    rfl
  · intro q hq
    have hq' : ¬ (0 ≤ q) := not_le.mpr hq
    refine ⟨toString (dms_components q).1 ++ "°" ++ toString (dms_components q).2.1 ++
      "\x27" ++ toString (dms_components q).2.2 ++ "\"", ?_⟩
    simp [decimal_to_dms, hq']
  · intro q
    have habs : (0 : ℚ) ≤ |q| := abs_nonneg q
    have h1 : 0 ≤ truncQ |q| := truncQ_nonneg habs
    have hfd : (0 : ℚ) ≤ (|q| - (truncQ |q| : ℚ)) * 60 := by
      rw [truncQ_of_nonneg habs]
      have := Int.floor_le |q|
      linarith
    have h2 : 0 ≤ truncQ ((|q| - (truncQ |q| : ℚ)) * 60) := truncQ_nonneg hfd
    have hfm : (0 : ℚ) ≤
        ((|q| - (truncQ |q| : ℚ)) * 60 -
          (truncQ ((|q| - (truncQ |q| : ℚ)) * 60) : ℚ)) * 60 := by
      rw [truncQ_of_nonneg hfd]
      have := Int.floor_le ((|q| - (truncQ |q| : ℚ)) * 60)
      linarith
    have h3 : 0 ≤ truncQ (((|q| - (truncQ |q| : ℚ)) * 60 -
        (truncQ ((|q| - (truncQ |q| : ℚ)) * 60) : ℚ)) * 60) := truncQ_nonneg hfm
    exact ⟨h1, h2, h3⟩

/-- Witness for C8 at the negative longitude -1.5. -/
theorem C8_dms_properties_witness :
    (-3 / 2 : ℚ) < 0 ∧ ∃ s, decimal_to_dms (-3 / 2) false = s ++ "W" :=
  ⟨by norm_num, C8_dms_properties.2.1 (-3 / 2) (by norm_num)⟩

/-- Claim C5: for every target spatial-reference identifier, if transform
construction fails the cache is left entirely unchanged (the failed
identifier is not stored — so a later call retries construction — and
every other identifier's entry is untouched); on a cache hit the stored
transform is returned with no reconstruction (the result does not depend
on the constructor at all); on construction success the transform is
stored and subsequent calls return the stored transform without
reconstruction. -/
theorem C5_transformer_cache (T : Type) (from_crs : Int → Except String T)
    (cache : Int → Option T) (epsg : Int) :
    (∀ e, cache epsg = none → from_crs epsg = .error e →
      get_transformer from_crs cache epsg = (.error e, cache)) ∧
    (∀ t, cache epsg = some t → ∀ g : Int → Except String T,
      get_transformer g cache epsg = (.ok t, cache)) ∧
    (∀ t, cache epsg = none → from_crs epsg = .ok t →
      get_transformer from_crs cache epsg = (.ok t, Function.update cache epsg (some t)) ∧
      ∀ g : Int → Except String T,
        get_transformer g (Function.update cache epsg (some t)) epsg =
          (.ok t, Function.update cache epsg (some t))) := by
  refine ⟨?_, ?_, ?_⟩
  · intro e hnone herr
    simp [get_transformer, hnone, herr]
  · intro t hsome g
    simp [get_transformer, hsome]
  · intro t hnone hok
    refine ⟨by simp [get_transformer, hnone, hok], ?_⟩
    intro g
    simp [get_transformer, Function.update_same]

/-- Witness for C5: a failing constructor on an empty cache leaves the
cache empty; a succeeding one stores the transform. -/
theorem C5_transformer_cache_witness :
    get_transformer (fun _ : Int => (.error "UnsupportedProjection" : Except String Nat))
        (fun _ : Int => (none : Option Nat)) 25832 =
      (.error "UnsupportedProjection", fun _ : Int => (none : Option Nat)) ∧
    get_transformer (fun _ : Int => (.ok 7 : Except String Nat))
        (fun _ : Int => (none : Option Nat)) 25832 =
      (.ok 7, Function.update (fun _ : Int => (none : Option Nat)) 25832 (some 7)) :=
  ⟨(C5_transformer_cache Nat (fun _ => .error "UnsupportedProjection")
      (fun _ => none) 25832).1 "UnsupportedProjection" rfl rfl,
   ((C5_transformer_cache Nat (fun _ => .ok 7)
      (fun _ => none) 25832).2.2 7 rfl rfl).1⟩

/-- Claim C6: under skip collision mode, for every input file whose
computed output path already exists, the result is the Skipped outcome
(`success=True`, message "skipped (already exists)"), no processing is
invoked (the result holds for every `procImage` and the invocation trace
is `none`), and the filesystem — in particular the content stored at the
pre-existing output path — is returned unchanged. -/
theorem C6_skip_mode (procImage : Fpath → Fpath → FS → Bool × FS)
    (fs : FS) (input : Fpath) (output_dir : String)
    (h : fsHas fs ⟨output_dir, input.stem, input.suffix⟩ = true) :
    process_single_image procImage fs input output_dir .skip =
      (⟨true, input.name, "skipped (already exists)"⟩, fs, none) := by
  simp [process_single_image, h]

/-- Witness for C6: `a.jpg` with `output/a.jpg` already present. -/
theorem C6_skip_mode_witness :
    fsHas [(⟨"output", "a", ".jpg"⟩, 0)] ⟨"output", "a", ".jpg"⟩ = true ∧
    process_single_image (fun _ _ s => (true, s)) [(⟨"output", "a", ".jpg"⟩, 0)]
        ⟨"input", "a", ".jpg"⟩ "output" .skip =
      (⟨true, Fpath.name ⟨"input", "a", ".jpg"⟩, "skipped (already exists)"⟩,
        [(⟨"output", "a", ".jpg"⟩, 0)], none) :=
  ⟨rfl, C6_skip_mode _ _ _ _ rfl⟩

/-- Counterexample to claim C4: the dispatched payloads carry no
resolved output path (only input path, output directory and mode), and
two jobs of the same batch — inputs `a.jpg` and `a_1.jpg`, with
`output/a.jpg` already existing — when each runs against that same
observed filesystem state under rename mode, resolve to the SAME
logical output path `output/a_1.jpg`: collision resolution happens in
the worker-side job body, not in the driver before dispatch. -/
theorem C4_worker_side_collision :
    process_args [⟨"input", "a", ".jpg"⟩, ⟨"input", "a_1", ".jpg"⟩] "output" .rename =
      [(⟨"input", "a", ".jpg"⟩, "output", .rename),
       (⟨"input", "a_1", ".jpg"⟩, "output", .rename)] ∧
    (process_single_image (fun _ _ s => (true, s)) [(⟨"output", "a", ".jpg"⟩, 0)]
        ⟨"input", "a", ".jpg"⟩ "output" .rename).2.2 = some ⟨"output", "a_1", ".jpg"⟩ ∧
    (process_single_image (fun _ _ s => (true, s)) [(⟨"output", "a", ".jpg"⟩, 0)]
        ⟨"input", "a_1", ".jpg"⟩ "output" .rename).2.2 = some ⟨"output", "a_1", ".jpg"⟩ :=
  ⟨rfl, rfl, rfl⟩

/-- Claim C4 as amended: output-path collision resolution (the existence
check and, under rename mode, the search for an unused suffixed path) is
performed inside the worker-side job body `process_single_image`,
against the filesystem state that job observes when it executes — the
dispatched payload carries no resolved path — and consequently two
distinct jobs of one batch that observe the same filesystem state can
resolve to the same logical output path under rename mode. -/
theorem C4_resolution_in_worker :
    (∀ (procImage : Fpath → Fpath → FS → Bool × FS) (fs : FS) (input : Fpath)
        (dir : String) (mode : CollisionMode),
      (process_single_image procImage fs input dir mode).2.2 =
        resolve_output_path fs ⟨dir, input.stem, input.suffix⟩ mode) ∧
    (∃ (fs : FS) (i1 i2 : Fpath) (dir : String)
        (procImage : Fpath → Fpath → FS → Bool × FS),
      i1 ≠ i2 ∧
      (process_single_image procImage fs i1 dir .rename).2.2 =
        (process_single_image procImage fs i2 dir .rename).2.2 ∧
      ((process_single_image procImage fs i1 dir .rename).2.2).isSome = true) := by
  constructor
  · intro procImage fs input dir mode
    simp only [process_single_image, resolve_output_path]
    by_cases h : fsHas fs ⟨dir, input.stem, input.suffix⟩ = true
    · simp only [h, if_true]
      cases mode <;> simp [run_process_image]
    · simp only [Bool.not_eq_true] at h
      simp [h, run_process_image]
  · exact ⟨[(⟨"output", "a", ".jpg"⟩, 0)], ⟨"input", "a", ".jpg"⟩, ⟨"input", "a_1", ".jpg"⟩,
      "output", fun _ _ s => (true, s), by decide, rfl, rfl⟩

/-! ## Structure of the GPS block -/

/-- `extract_gps` decomposed: each output field is a function of exactly
the data its stage reads.  This is the workhorse for the field
(in)dependence claims. -/
theorem extract_gps_eq (g : GpsIFD) (s : Bool) (u : ℚ → ℚ → Option String)
    (r : MetadataRecord) :
    extract_gps g s u r =
      match g.latitude, g.latitudeRef, g.longitude, g.longitudeRef with
      | some latRat, some latRef, some lonRat, some lonRef =>
        (match rational_to_decimal latRat with
         | .error _ => r
         | .ok latAbs =>
           let lat := if latRef = "S" then -latAbs else latAbs
           match rational_to_decimal lonRat with
           | .error _ => r
           | .ok lonAbs =>
             let lon := if lonRef = "W" then -lonAbs else lonAbs
             { filename := r.filename, datetime := r.datetime,
               location := some (decimal_to_dms lat true ++ ", " ++ decimal_to_dms lon false),
               altitude := altitude_field g.altitude g.altitudeRef r.altitude,
               direction := direction_field g.imgDirection r.direction,
               location_utm := utm_field s u lat lon r.location_utm })
      | _, _, _, _ => r := by
  unfold extract_gps altitude_field direction_field utm_field
  repeat' split
  all_goals try rfl
  all_goals (simp only []; repeat' split)
  all_goals rfl

theorem altitude_field_absent (alt : Option ExifNum) (ref : Option Int) (prev : Option ℚ)
    (h : alt = none ∨ ∃ a, alt = some a ∧ exifNumToFloat a = none) :
    altitude_field alt ref prev = prev := by
  rcases h with h | ⟨a, ha, hf⟩
  · simp [h, altitude_field]
  · simp [ha, altitude_field, hf]

theorem direction_field_absent (dir : Option ExifNum) (prev : Option ℚ)
    (h : dir = none ∨ ∃ a, dir = some a ∧ exifNumToFloat a = none) :
    direction_field dir prev = prev := by
  rcases h with h | ⟨a, ha, hf⟩
  · simp [h, direction_field]
  · simp [ha, direction_field, hf]

theorem extract_gps_filename (g : GpsIFD) (s : Bool) (u : ℚ → ℚ → Option String)
    (r : MetadataRecord) : (extract_gps g s u r).filename = r.filename := by
  simp only [extract_gps_eq]
  repeat' split
  all_goals rfl

/-- Claim C9: for every input — a load failure of any caught class
(missing file, unreadable bytes, corrupted container) included — the
metadata extraction returns a record (the embedding is a total
function, mirroring that every exception class is caught); when the
container cannot be opened at all, every metadata field of the returned
record is absent while the filename field is preserved — and the
filename is in fact preserved on every input. -/
theorem C9_extraction_never_raises :
    (∀ (e : LoadError) (filename : Option String) (s : Bool) (u : ℚ → ℚ → Option String),
      extract_exif_data (.error e) filename s u =
        { filename := filename, datetime := none, location := none,
          altitude := none, direction := none, location_utm := none }) ∧
    (∀ (loaded : Except LoadError ExifDict) (filename : Option String) (s : Bool)
        (u : ℚ → ℚ → Option String),
      (extract_exif_data loaded filename s u).filename = filename) := by
  constructor
  · intro e filename s u
    rfl
  · intro loaded filename s u
    rcases loaded with e | exif
    · rfl
    · rcases hgg : exif.gps with _ | g
      · simp [extract_exif_data, hgg]
      · simp [extract_exif_data, hgg, extract_gps_filename]

/-- Counterexample to claim C1: with a complete latitude/longitude pair
whose latitude rational is malformed (zero denominator), and a present,
well-formed altitude tag (100/1) and image direction tag (90/1), the
extraction returns altitude `none` and direction `none` — they were not
attempted, contradicting "altitude and heading are attempted even when
the GPS pair's rational data is malformed".  With the latitude repaired
and nothing else changed, the very same altitude and direction data
yield `some 100` and `some 90`. -/
theorem C1_counterexample_altitude_skipped :
    extract_exif_data (.ok dictMalformedLat) (some "img.jpg") false (fun _ _ => none) =
      { filename := some "img.jpg", datetime := none, location := none,
        altitude := none, direction := none, location_utm := none } ∧
    (extract_exif_data (.ok dictWellFormedLat) (some "img.jpg") false
        (fun _ _ => none)).altitude = some 100 ∧
    (extract_exif_data (.ok dictWellFormedLat) (some "img.jpg") false
        (fun _ _ => none)).direction = some 90 := by
  refine ⟨?_, ?_, ?_⟩
  · rfl
  · have hlat : rational_to_decimal [(1, 1), (1, 1), (1, 1)] =
        .ok ((1 : ℚ) / 1 + ((1 : ℚ) / 1) / 60 + ((1 : ℚ) / 1) / 3600) := by
      norm_num [rational_to_decimal]
    have hlon : rational_to_decimal [(10, 1), (0, 1), (0, 1)] =
        .ok ((10 : ℚ) / 1 + ((0 : ℚ) / 1) / 60 + ((0 : ℚ) / 1) / 3600) := by
      norm_num [rational_to_decimal]
    have halt : exifNumToFloat (.rat 100 1) = some 100 := by
      norm_num [exifNumToFloat]
    simp [extract_exif_data, dictWellFormedLat, dictMalformedLat, extract_gps,
      hlat, hlon, halt, decodeText, exifNumToFloat]
    norm_num [rational_to_decimal]
  · have hlat : rational_to_decimal [(1, 1), (1, 1), (1, 1)] =
        .ok ((1 : ℚ) / 1 + ((1 : ℚ) / 1) / 60 + ((1 : ℚ) / 1) / 3600) := by
      norm_num [rational_to_decimal]
    have hlon : rational_to_decimal [(10, 1), (0, 1), (0, 1)] =
        .ok ((10 : ℚ) / 1 + ((0 : ℚ) / 1) / 60 + ((0 : ℚ) / 1) / 3600) := by
      norm_num [rational_to_decimal]
    have hdir : exifNumToFloat (.rat 90 1) = some 90 := by
      norm_num [exifNumToFloat]
    simp [extract_exif_data, dictWellFormedLat, dictMalformedLat, extract_gps,
      hlat, hlon, hdir, decodeText, exifNumToFloat]
    norm_num [rational_to_decimal]

/-- Claim C1 as amended: the timestamp is extracted independently of the
GPS block (changing the DateTime tag changes only the datetime field);
within a successfully decoded latitude/longitude pair, the altitude data
influences no other field, the heading data influences no other field,
an absent or unconvertible altitude (resp. heading) leaves only that
field absent, the projection enable-flag and oracle influence no field
but the projected location, and a projection failure on a decoded pair
sets only `location_utm` (to present-with-None) while the location is
still set and altitude and heading are still computed by their own
guards; BUT when the latitude/longitude pair is incomplete or its
rational data is malformed, the whole GPS block is abandoned: location,
altitude, heading and projected location are all left absent (altitude
and heading are NOT attempted in that case). -/
theorem C1_field_guards :
    (∀ (e : ExifDict) (t : Option RawText) (f : Option String) (s : Bool)
        (u : ℚ → ℚ → Option String),
      extract_exif_data (.ok { e with dateTime := t }) f s u =
        { extract_exif_data (.ok e) f s u with datetime := t.bind decodeText }) ∧
    (∀ (g : GpsIFD) (a1 a2 : Option ExifNum) (r1 r2 : Option Int) (s : Bool)
        (u : ℚ → ℚ → Option String) (r : MetadataRecord),
      ((extract_gps { g with altitude := a1, altitudeRef := r1 } s u r).location =
        (extract_gps { g with altitude := a2, altitudeRef := r2 } s u r).location) ∧
      ((extract_gps { g with altitude := a1, altitudeRef := r1 } s u r).direction =
        (extract_gps { g with altitude := a2, altitudeRef := r2 } s u r).direction) ∧
      ((extract_gps { g with altitude := a1, altitudeRef := r1 } s u r).location_utm =
        (extract_gps { g with altitude := a2, altitudeRef := r2 } s u r).location_utm)) ∧
    (∀ (g : GpsIFD) (d1 d2 : Option ExifNum) (r1 r2 : Option String) (s : Bool)
        (u : ℚ → ℚ → Option String) (r : MetadataRecord),
      ((extract_gps { g with imgDirection := d1, imgDirectionRef := r1 } s u r).location =
        (extract_gps { g with imgDirection := d2, imgDirectionRef := r2 } s u r).location) ∧
      ((extract_gps { g with imgDirection := d1, imgDirectionRef := r1 } s u r).altitude =
        (extract_gps { g with imgDirection := d2, imgDirectionRef := r2 } s u r).altitude) ∧
      ((extract_gps { g with imgDirection := d1, imgDirectionRef := r1 } s u r).location_utm =
        (extract_gps { g with imgDirection := d2, imgDirectionRef := r2 } s u r).location_utm)) ∧
    (∀ (g : GpsIFD) (s : Bool) (u : ℚ → ℚ → Option String) (r : MetadataRecord),
      (g.altitude = none ∨ ∃ a, g.altitude = some a ∧ exifNumToFloat a = none) →
      (extract_gps g s u r).altitude = r.altitude) ∧
    (∀ (g : GpsIFD) (s : Bool) (u : ℚ → ℚ → Option String) (r : MetadataRecord),
      (g.imgDirection = none ∨ ∃ a, g.imgDirection = some a ∧ exifNumToFloat a = none) →
      (extract_gps g s u r).direction = r.direction) ∧
    (∀ (g : GpsIFD) (s : Bool) (u : ℚ → ℚ → Option String) (r : MetadataRecord),
      (g.latitude = none ∨ g.latitudeRef = none ∨ g.longitude = none ∨
        g.longitudeRef = none ∨
        (∃ latRat, g.latitude = some latRat ∧
          rational_to_decimal latRat = .error .malformedCoordinate) ∨
        (∃ lonRat, g.longitude = some lonRat ∧
          rational_to_decimal lonRat = .error .malformedCoordinate)) →
      extract_gps g s u r = r) ∧
    (∀ (g : GpsIFD) (s1 s2 : Bool) (u1 u2 : ℚ → ℚ → Option String)
        (r : MetadataRecord),
      ((extract_gps g s1 u1 r).location = (extract_gps g s2 u2 r).location) ∧
      ((extract_gps g s1 u1 r).altitude = (extract_gps g s2 u2 r).altitude) ∧
      ((extract_gps g s1 u1 r).direction = (extract_gps g s2 u2 r).direction)) ∧
    (∀ (g : GpsIFD) (u : ℚ → ℚ → Option String) (r : MetadataRecord),
      (∀ a b, u a b = none) →
      ∀ latRat latRef lonRat lonRef latAbs lonAbs,
        g.latitude = some latRat → g.latitudeRef = some latRef →
        g.longitude = some lonRat → g.longitudeRef = some lonRef →
        rational_to_decimal latRat = .ok latAbs →
        rational_to_decimal lonRat = .ok lonAbs →
        ((extract_gps g true u r).location_utm = some none) ∧
        ((extract_gps g true u r).location =
          some (decimal_to_dms (if latRef = "S" then -latAbs else latAbs) true ++ ", " ++
            decimal_to_dms (if lonRef = "W" then -lonAbs else lonAbs) false)) ∧
        ((extract_gps g true u r).altitude =
          altitude_field g.altitude g.altitudeRef r.altitude) ∧
        ((extract_gps g true u r).direction =
          direction_field g.imgDirection r.direction)) := by
  refine ⟨?_, ?_, ?_, ?_, ?_, ?_, ?_, ?_⟩
  · intro e t f s u
    simp only [extract_exif_data]
    rcases hg : e.gps with _ | g
    · simp [hg]
    · simp only [hg]
      simp only [extract_gps_eq]
      repeat' split
      all_goals simp
  · intro g a1 a2 r1 r2 s u r
    refine ⟨?_, ?_, ?_⟩ <;> simp only [extract_gps_eq] <;> (repeat' split) <;> rfl
  · intro g d1 d2 r1 r2 s u r
    refine ⟨?_, ?_, ?_⟩ <;> simp only [extract_gps_eq] <;> (repeat' split) <;> rfl
  · intro g s u r h
    simp only [extract_gps_eq]
    repeat' split
    all_goals try rfl
    all_goals exact altitude_field_absent _ _ _ h
  · intro g s u r h
    simp only [extract_gps_eq]
    repeat' split
    all_goals try rfl
    all_goals exact direction_field_absent _ _ h
  · intro g s u r h
    simp only [extract_gps_eq]
    repeat' split
    all_goals try rfl
    all_goals (rcases h with h | h | h | h | ⟨latRat, hl, he⟩ | ⟨lonRat, hl, he⟩ <;> simp_all)
  · intro g s1 s2 u1 u2 r
    refine ⟨?_, ?_, ?_⟩ <;> simp only [extract_gps_eq] <;> (repeat' split) <;> rfl
  · intro g u r hu latRat latRef lonRat lonRef latAbs lonAbs h1 h2 h3 h4 h5 h6
    simp only [extract_gps_eq, h1, h2, h3, h4, h5, h6]
    simp [utm_field, hu]

/-- Witness for the amended C1: an unconvertible altitude tag leaves
altitude absent, an unconvertible direction tag leaves direction
absent, an entirely absent GPS latitude abandons the GPS block, and a
failing projection on a decoded pair sets only the projected-location
key to present-with-None. -/
theorem C1_field_guards_witness :
    (extract_gps ⟨some [(1, 1), (1, 1), (1, 1)], some "N", some [(10, 1), (0, 1), (0, 1)],
        some "E", some .invalid, none, none, none⟩ false (fun _ _ => none)
        ⟨some "a.jpg", none, none, none, none, none⟩).altitude = none ∧
    (extract_gps ⟨some [(1, 1), (1, 1), (1, 1)], some "N", some [(10, 1), (0, 1), (0, 1)],
        some "E", none, none, some .invalid, none⟩ false (fun _ _ => none)
        ⟨some "a.jpg", none, none, none, none, none⟩).direction = none ∧
    extract_gps ⟨none, none, none, none, none, none, none, none⟩ false (fun _ _ => none)
        ⟨some "a.jpg", none, none, none, none, none⟩ =
      ⟨some "a.jpg", none, none, none, none, none⟩ ∧
    (extract_gps ⟨some [(1, 1), (1, 1), (1, 1)], some "N", some [(10, 1), (0, 1), (0, 1)],
        some "E", none, none, none, none⟩ true (fun _ _ => none)
        ⟨some "a.jpg", none, none, none, none, none⟩).location_utm = some none :=
  ⟨(C1_field_guards.2.2.2.1 _ false _ _ (Or.inr ⟨.invalid, rfl, rfl⟩)).trans rfl,
   (C1_field_guards.2.2.2.2.1 _ false _ _ (Or.inr ⟨.invalid, rfl, rfl⟩)).trans rfl,
   C1_field_guards.2.2.2.2.2.1 _ false _ _ (Or.inl rfl),
   (C1_field_guards.2.2.2.2.2.2.2 _ _ _ (fun _ _ => rfl)
      [(1, 1), (1, 1), (1, 1)] "N" [(10, 1), (0, 1), (0, 1)] "E"
      ((1 : ℚ) / 1 + ((1 : ℚ) / 1) / 60 + ((1 : ℚ) / 1) / 3600)
      ((10 : ℚ) / 1 + ((0 : ℚ) / 1) / 60 + ((0 : ℚ) / 1) / 3600)
      rfl rfl rfl rfl (by norm_num [rational_to_decimal])
      (by norm_num [rational_to_decimal])).1⟩
